import Mathlib

/-!
Shallow embedding of the core trading engine of `tradey` (`src/lib.rs`):
the position / ATH-tracker data model, the exit-strategy evaluator, the
monitoring cycle, emergency liquidation, and the retry loops of the order
execution pipeline.

Conventions of the embedding:
* `rust_decimal::Decimal` prices are modelled as `ℚ` (exact decimal
  arithmetic; all operations used by the code — subtraction, division,
  multiplication by 100, comparisons — are exact on the values involved).
* `HashMap<String, V>` is modelled as an association list
  `List (String × V)` with `mapLookup` / `mapInsert` (insert-or-replace,
  the semantics of `HashMap::insert`) / `mapRemove`.
* Network effects are modelled by passing the outcome of each external
  call as a function argument: the Jupiter price oracle is a
  `String → Except String ℚ`, the sell gateway a
  `String → Except String String`, a retryable call a
  `ℕ → Except String α` giving each attempt's outcome.
* `DateTime<Utc>` timestamps are opaque `ℕ` values threaded as a `now`
  parameter where the code calls `Utc::now()`.
-/

namespace Tradey

/-- `StrategyType` from `src/lib.rs`. -/
inductive StrategyType where
  | Conservative
  | Aggressive
  | ConservativeATH
  | AggressiveATH
  deriving DecidableEq, Repr

/-- `Platform` from `src/lib.rs`. -/
inductive Platform where
  | PumpFun
  | Raydium
  | Jupiter
  deriving DecidableEq, Repr

/-- `Position` from `src/lib.rs`. -/
structure Position where
  token_address : String
  entry_price : ℚ
  amount_tokens : ℕ
  entry_time : ℕ
  strategy : StrategyType
  buy_signature : String
  deriving DecidableEq, Repr

/-- `ATHTracker` from `src/lib.rs`. -/
structure ATHTracker where
  entry_price : ℚ
  ath_price : ℚ
  last_price : ℚ
  pullback_percent : ℚ
  min_profit_percent : ℚ
  last_updated : ℕ
  deriving DecidableEq, Repr

/-- `TradeConfig` from `src/lib.rs` (`amount_sol : f64` modelled as `ℚ`). -/
structure TradeConfig where
  token_address : String
  amount_sol : ℚ
  slippage_bps : ℕ
  strategy : StrategyType
  deriving DecidableEq, Repr

/-- `TradeResult` from `src/lib.rs` (`sol_spent : Option<f64>` modelled as `Option ℚ`). -/
structure TradeResult where
  signature : String
  success : Bool
  error : Option String
  execution_time_ms : ℕ
  platform_used : Platform
  tokens_received : Option ℕ
  sol_spent : Option ℚ
  deriving DecidableEq, Repr

/-- The two shared maps of `FastMemeTrader`: `positions` and `ath_tracker`. -/
structure TraderState where
  positions : List (String × Position)
  trackers : List (String × ATHTracker)
  deriving DecidableEq, Repr

/-- `HashMap` lookup on the association-list model. -/
def mapLookup {α : Type} : List (String × α) → String → Option α
  | [], _ => none
  | (k, v) :: rest, key => if k = key then some v else mapLookup rest key

/-- `HashMap::insert`: replaces the value when the key is already present. -/
def mapInsert {α : Type} : List (String × α) → String → α → List (String × α)
  | [], key, v => [(key, v)]
  | (k, v') :: rest, key, v =>
      if k = key then (key, v) :: rest else (k, v') :: mapInsert rest key v

/-- `HashMap::remove` (all entries with the key are dropped; keys are unique). -/
def mapRemove {α : Type} : List (String × α) → String → List (String × α)
  | [], _ => []
  | (k, v) :: rest, key =>
      if k = key then mapRemove rest key else (k, v) :: mapRemove rest key

/-- `FastMemeTrader::calculate_profit_percent` (`src/lib.rs:912`). -/
def calculate_profit_percent (entry_price current_price : ℚ) : ℚ :=
  if entry_price = 0 then 0
  else (current_price - entry_price) / entry_price * 100

/-- The pullback-from-watermark computation inside
`check_ath_pullback_exit` (`src/lib.rs:709`). -/
def pullbackFromAth (ath_price current_price : ℚ) : ℚ :=
  if 0 < ath_price then (ath_price - current_price) / ath_price * 100
  else 0

/-- `FastMemeTrader::check_ath_pullback_exit` (`src/lib.rs:705`). -/
def check_ath_pullback_exit (trackers : List (String × ATHTracker))
    (token_address : String) (current_price : ℚ) : Bool :=
  match mapLookup trackers token_address with
  | some tracker =>
      decide (calculate_profit_percent tracker.entry_price current_price
                ≥ tracker.min_profit_percent
              ∧ pullbackFromAth tracker.ath_price current_price
                ≥ tracker.pullback_percent)
  | none => false

/-- The tracker refresh at the top of `evaluate_exit_strategy`
(`src/lib.rs:676`-687): raise `ath_price` if the observed price exceeds it,
record `last_price` and `last_updated`. -/
def updateTracker (tracker : ATHTracker) (current_price : ℚ) (now : ℕ) : ATHTracker :=
  { tracker with
      ath_price := if current_price > tracker.ath_price then current_price
                   else tracker.ath_price
      last_price := current_price
      last_updated := now }

/-- `FastMemeTrader::evaluate_exit_strategy` (`src/lib.rs:675`): first the
tracker map is mutated through the write lock, then the strategy decision is
computed (for the watermark strategies, against the already-updated map).
Returns the new tracker map together with `should_sell`. -/
def evaluate_exit_strategy (trackers : List (String × ATHTracker))
    (position : Position) (current_price : ℚ) (now : ℕ) :
    List (String × ATHTracker) × Bool :=
  let trackers' :=
    match mapLookup trackers position.token_address with
    | some tracker =>
        mapInsert trackers position.token_address (updateTracker tracker current_price now)
    | none => trackers
  let should_sell :=
    match position.strategy with
    | StrategyType.Conservative =>
        decide (calculate_profit_percent position.entry_price current_price ≥ 15
                ∨ calculate_profit_percent position.entry_price current_price ≤ -5)
    | StrategyType.Aggressive =>
        decide (calculate_profit_percent position.entry_price current_price ≥ 50
                ∨ calculate_profit_percent position.entry_price current_price ≤ -15)
    | StrategyType.ConservativeATH =>
        check_ath_pullback_exit trackers' position.token_address current_price
    | StrategyType.AggressiveATH =>
        check_ath_pullback_exit trackers' position.token_address current_price
  (trackers', should_sell)

/-- The `Position` built by `initialize_position` (`src/lib.rs:572`). -/
def make_position (config : TradeConfig) (signature : String)
    (tokens_received : ℕ) (current_price : ℚ) (now : ℕ) : Position :=
  { token_address := config.token_address
    entry_price := current_price
    amount_tokens := tokens_received
    entry_time := now
    strategy := config.strategy
    buy_signature := signature }

/-- The `ATHTracker` built by `initialize_position` (`src/lib.rs:581`):
strategy-derived pullback / min-profit thresholds, `ath = last = entry
= current_price`. -/
def make_ath_tracker (strategy : StrategyType) (current_price : ℚ) (now : ℕ) : ATHTracker :=
  match strategy with
  | StrategyType.ConservativeATH =>
      { entry_price := current_price, ath_price := current_price
        last_price := current_price, pullback_percent := 8
        min_profit_percent := 3, last_updated := now }
  | StrategyType.AggressiveATH =>
      { entry_price := current_price, ath_price := current_price
        last_price := current_price, pullback_percent := 12
        min_profit_percent := 5, last_updated := now }
  | _ =>
      { entry_price := current_price, ath_price := current_price
        last_price := current_price, pullback_percent := 10
        min_profit_percent := 2, last_updated := now }

/-- `FastMemeTrader::initialize_position` (`src/lib.rs:566`): insert the new
`Position` and `ATHTracker` into the two maps (`HashMap::insert`, so an
existing entry for the same token is replaced). -/
def initialize_position (st : TraderState) (config : TradeConfig)
    (signature : String) (tokens_received : ℕ) (current_price : ℚ) (now : ℕ) :
    TraderState :=
  { positions := mapInsert st.positions config.token_address
      (make_position config signature tokens_received current_price now)
    trackers := mapInsert st.trackers config.token_address
      (make_ath_tracker config.strategy current_price now) }

/-- `FastMemeTrader::get_current_price` (`src/lib.rs:876`): try the Jupiter
price API; on failure fall back to `Ok(Decimal::from(0))`.  The Jupiter call's
outcome is the argument `jup`. -/
def get_current_price (jup : String → Except String ℚ) (token_address : String) :
    Except String ℚ :=
  match jup token_address with
  | Except.ok price => Except.ok price
  | Except.error _ => Except.ok 0

/-- `FastMemeTrader::sell_position` (`src/lib.rs:732`): error when the balance
lookup fails or the balance is zero; otherwise a `TradeResult` whose `success`
flag records whether the Jupiter sell went through — a gateway failure is
returned as `Ok` with `success := false` and the error message attached. -/
def sell_position (balanceOf : String → Except String ℕ)
    (jupSell : String → Except String String) (elapsed : ℕ)
    (token_address : String) : Except String TradeResult :=
  match balanceOf token_address with
  | Except.error e => Except.error e
  | Except.ok token_balance =>
      if token_balance = 0 then Except.error "No tokens to sell"
      else
        match jupSell token_address with
        | Except.ok signature =>
            Except.ok { signature := signature, success := true, error := none
                        execution_time_ms := elapsed
                        platform_used := Platform.Jupiter
                        tokens_received := none, sol_spent := none }
        | Except.error e =>
            Except.ok { signature := "", success := false, error := some e
                        execution_time_ms := elapsed
                        platform_used := Platform.Jupiter
                        tokens_received := none, sol_spent := none }

/-- `{:?}` rendering of `StrategyType`. -/
def strategyDebug : StrategyType → String
  | StrategyType.Conservative => "Conservative"
  | StrategyType.Aggressive => "Aggressive"
  | StrategyType.ConservativeATH => "ConservativeATH"
  | StrategyType.AggressiveATH => "AggressiveATH"

/-- The executed-sell message built in `monitor_positions` (`src/lib.rs:648`). -/
def sellMessage (position : Position) (sell_result : TradeResult) : String :=
  "Sold " ++ position.token_address.take 8 ++ " - Signature: "
    ++ sell_result.signature ++ " - Strategy: " ++ strategyDebug position.strategy
    ++ " - Time: " ++ toString sell_result.execution_time_ms ++ "ms"

/-- The batched price refresh of `monitor_positions` (`src/lib.rs:633`-638):
one `get_current_price` call per held position; only `Ok` results enter the
`price_updates` map. -/
def price_snapshot (jup : String → Except String ℚ) (positions : List Position) :
    List (String × ℚ) :=
  positions.foldl
    (fun price_updates position =>
      match get_current_price jup position.token_address with
      | Except.ok current_price =>
          mapInsert price_updates position.token_address current_price
      | Except.error _ => price_updates)
    []

/-- The body of the per-position loop of `monitor_positions`
(`src/lib.rs:640`-669): skip the position when its token is absent from
`price_updates`; otherwise refresh the tracker and evaluate the strategy, and
when `should_sell` holds and `sell_position` returns `Ok` (note: also when the
returned `TradeResult` has `success = false`), record the message and remove
the position and tracker. -/
def monitor_step (sell : String → Except String TradeResult) (now : ℕ)
    (price_updates : List (String × ℚ)) (acc : TraderState × List String)
    (position : Position) : TraderState × List String :=
  match mapLookup price_updates position.token_address with
  | none => acc
  | some current_price =>
      let res := evaluate_exit_strategy acc.1.trackers position current_price now
      let st1 : TraderState := { positions := acc.1.positions, trackers := res.1 }
      if res.2 then
        match sell position.token_address with
        | Except.ok sell_result =>
            ({ positions := mapRemove st1.positions position.token_address
               trackers := mapRemove st1.trackers position.token_address },
             acc.2 ++ [sellMessage position sell_result])
        | Except.error _ => (st1, acc.2)
      else (st1, acc.2)

/-- `FastMemeTrader::monitor_positions` (`src/lib.rs:621`): snapshot the
positions, batch-refresh prices, then run the per-position loop sequentially.
Returns the final state and the executed-sell messages. -/
def monitor_positions (jup : String → Except String ℚ)
    (sell : String → Except String TradeResult) (now : ℕ)
    (st : TraderState) : TraderState × List String :=
  let positions := st.positions.map Prod.snd
  if positions.isEmpty then (st, [])
  else positions.foldl (monitor_step sell now (price_snapshot jup positions)) (st, [])

/-- `FastMemeTrader::emergency_sell_all` (`src/lib.rs:958`): sell every held
token sequentially, collecting the `TradeResult`s of the `Ok` outcomes, then
unconditionally `clear()` both maps. -/
def emergency_sell_all (sell : String → Except String TradeResult)
    (st : TraderState) : TraderState × List TradeResult :=
  let tokens := st.positions.map Prod.fst
  let results := tokens.foldl
    (fun acc token_address =>
      match sell token_address with
      | Except.ok trade_result => acc ++ [trade_result]
      | Except.error _ => acc)
    []
  ({ positions := [], trackers := [] }, results)

/-- Outcome of a retry loop: the returned result, how many attempts were
actually made, and the sleeps (in milliseconds) performed between attempts. -/
structure RetryTrace (α : Type) where
  result : Except String α
  attempts_made : ℕ
  delays_ms : List ℕ
  deriving Repr

/-- The loop of `get_jupiter_quote_with_retry` (`src/lib.rs:395`): for each
attempt number in turn, stop on success; on failure remember the error and,
when further attempts remain, sleep `500 * attempt` ms.  After the last
failure return the last error (`unwrap_or` a generic message). -/
def quoteLoop {α : Type} (attemptResult : ℕ → Except String α) :
    List ℕ → Option String → ℕ → List ℕ → RetryTrace α
  | [], last_error, made, delays =>
      { result := Except.error (last_error.getD "All quote attempts failed")
        attempts_made := made, delays_ms := delays }
  | attempt :: rest, _, made, delays =>
      match attemptResult attempt with
      | Except.ok quote =>
          { result := Except.ok quote, attempts_made := made + 1, delays_ms := delays }
      | Except.error e =>
          quoteLoop attemptResult rest (some e) (made + 1)
            (if rest.isEmpty then delays else delays ++ [500 * attempt])

/-- `FastMemeTrader::get_jupiter_quote_with_retry` (`src/lib.rs:395`);
`buy_jupiter` calls it with `max_retries = 3` (`src/lib.rs:335`). -/
def get_jupiter_quote_with_retry {α : Type} (attemptResult : ℕ → Except String α)
    (max_retries : ℕ) : RetryTrace α :=
  quoteLoop attemptResult (List.range' 1 max_retries) none 0 []

/-- `{:?}` rendering of the `Option<ClientError>` held in `last_error`. -/
def debugOpt : Option String → String
  | none => "None"
  | some e => "Some(" ++ e ++ ")"

/-- The loop of `send_with_retry` (`src/lib.rs:531`): five attempts (each
attempt re-signs with a fresh blockhash, abstracted into `attemptResult`);
on failure sleep `500 * 2^(attempt-1)` ms while attempts remain; after the
fifth failure return an error embedding the last underlying error. -/
def sendLoop (attemptResult : ℕ → Except String String) :
    List ℕ → Option String → ℕ → List ℕ → RetryTrace String
  | [], last_error, made, delays =>
      { result := Except.error
          ("Transaction failed after 5 attempts: " ++ debugOpt last_error)
        attempts_made := made, delays_ms := delays }
  | attempt :: rest, _, made, delays =>
      match attemptResult attempt with
      | Except.ok signature =>
          { result := Except.ok signature, attempts_made := made + 1, delays_ms := delays }
      | Except.error e =>
          sendLoop attemptResult rest (some e) (made + 1)
            (if rest.isEmpty then delays else delays ++ [500 * 2 ^ (attempt - 1)])

/-- `FastMemeTrader::send_with_retry` (`src/lib.rs:531`): the attempt ceiling
is the literal 5. -/
def send_with_retry (attemptResult : ℕ → Except String String) : RetryTrace String :=
  sendLoop attemptResult (List.range' 1 5) none 0 []

/-- Key list of an association-list map. -/
def mapKeys {α : Type} (m : List (String × α)) : List String :=
  m.map Prod.fst

/-- A well-formed `HashMap` model has no duplicate keys. -/
def keysNodup {α : Type} (m : List (String × α)) : Prop :=
  (mapKeys m).Nodup

/-! ### Association-list lemmas -/

lemma mapLookup_insert_self {α : Type} (m : List (String × α)) (k : String) (v : α) :
    mapLookup (mapInsert m k v) k = some v := by
  induction m with
  | nil => simp [mapInsert, mapLookup]
  | cons hd tl ih =>
      obtain ⟨k', v'⟩ := hd
      by_cases h : k' = k <;> simp [mapInsert, mapLookup, h, ih]

lemma mapLookup_insert_ne {α : Type} (m : List (String × α)) (k k' : String) (v : α)
    (h : k' ≠ k) : mapLookup (mapInsert m k v) k' = mapLookup m k' := by
  have h' : ¬ (k = k') := fun he => h he.symm
  induction m with
  | nil => simp [mapInsert, mapLookup, h']
  | cons hd tl ih =>
      obtain ⟨k'', v''⟩ := hd
      by_cases h2 : k'' = k
      · subst h2
        simp [mapInsert, mapLookup, h']
      · by_cases h3 : k'' = k' <;> simp [mapInsert, mapLookup, h2, h3, h, h', ih]

lemma mapLookup_remove_self {α : Type} (m : List (String × α)) (k : String) :
    mapLookup (mapRemove m k) k = none := by
  induction m with
  | nil => simp [mapRemove, mapLookup]
  | cons hd tl ih =>
      obtain ⟨k', v'⟩ := hd
      by_cases h : k' = k <;> simp [mapRemove, mapLookup, h, ih]

lemma mapLookup_remove_ne {α : Type} (m : List (String × α)) (k k' : String)
    (h : k' ≠ k) : mapLookup (mapRemove m k) k' = mapLookup m k' := by
  have h' : ¬ (k = k') := fun he => h he.symm
  induction m with
  | nil => simp [mapRemove, mapLookup]
  | cons hd tl ih =>
      obtain ⟨k'', v''⟩ := hd
      by_cases h2 : k'' = k
      · subst h2
        simp [mapRemove, mapLookup, h', ih]
      · by_cases h3 : k'' = k' <;> simp [mapRemove, mapLookup, h, h2, h3, ih]

lemma mapKeys_cons {α : Type} (k : String) (v : α) (m : List (String × α)) :
    mapKeys ((k, v) :: m) = k :: mapKeys m := rfl

lemma mem_mapKeys_insert {α : Type} (m : List (String × α)) (k a : String) (v : α)
    (h : a ∈ mapKeys (mapInsert m k v)) : a ∈ mapKeys m ∨ a = k := by
  induction m with
  | nil =>
      right
      simpa [mapInsert, mapKeys] using h
  | cons hd tl ih =>
      obtain ⟨k', v'⟩ := hd
      by_cases h2 : k' = k
      · subst h2
        have he : mapInsert ((k', v') :: tl) k' v = (k', v) :: tl := by
          simp [mapInsert]
        rw [he, mapKeys_cons] at h
        rcases List.mem_cons.mp h with h | h
        · exact Or.inr h
        · exact Or.inl (by rw [mapKeys_cons]; exact List.mem_cons_of_mem _ h)
      · have he : mapInsert ((k', v') :: tl) k v = (k', v') :: mapInsert tl k v := by
          simp [mapInsert, h2]
        rw [he, mapKeys_cons] at h
        rcases List.mem_cons.mp h with h | h
        · exact Or.inl (by rw [mapKeys_cons]; exact List.mem_cons.mpr (Or.inl h))
        · rcases ih h with h3 | h3
          · exact Or.inl (by rw [mapKeys_cons]; exact List.mem_cons_of_mem _ h3)
          · exact Or.inr h3

lemma keysNodup_insert {α : Type} (m : List (String × α)) (k : String) (v : α)
    (h : keysNodup m) : keysNodup (mapInsert m k v) := by
  induction m with
  | nil => simp [mapInsert, keysNodup, mapKeys]
  | cons hd tl ih =>
      obtain ⟨k', v'⟩ := hd
      rw [keysNodup, mapKeys_cons, List.nodup_cons] at h
      by_cases h2 : k' = k
      · subst h2
        have he : mapInsert ((k', v') :: tl) k' v = (k', v) :: tl := by
          simp [mapInsert]
        rw [keysNodup, he, mapKeys_cons, List.nodup_cons]
        exact h
      · have he : mapInsert ((k', v') :: tl) k v = (k', v') :: mapInsert tl k v := by
          simp [mapInsert, h2]
        rw [keysNodup, he, mapKeys_cons, List.nodup_cons]
        refine ⟨fun hmem => ?_, ih h.2⟩
        rcases mem_mapKeys_insert tl k k' v hmem with h3 | h3
        · exact h.1 h3
        · exact h2 h3

/-! ### Evaluator and monitoring-step lemmas -/

lemma evaluate_trackers_lookup_self (trackers : List (String × ATHTracker))
    (position : Position) (current_price : ℚ) (now : ℕ) (t : ATHTracker)
    (h : mapLookup trackers position.token_address = some t) :
    mapLookup (evaluate_exit_strategy trackers position current_price now).1
      position.token_address = some (updateTracker t current_price now) := by
  simp [evaluate_exit_strategy, h, mapLookup_insert_self]

lemma evaluate_trackers_lookup_ne (trackers : List (String × ATHTracker))
    (position : Position) (current_price : ℚ) (now : ℕ) (y : String)
    (h : position.token_address ≠ y) :
    mapLookup (evaluate_exit_strategy trackers position current_price now).1 y
      = mapLookup trackers y := by
  cases h2 : mapLookup trackers position.token_address with
  | none => simp [evaluate_exit_strategy, h2]
  | some t =>
      simp [evaluate_exit_strategy, h2,
            mapLookup_insert_ne _ _ _ _ (fun he => h he.symm)]

lemma evaluate_congr (tr1 tr2 : List (String × ATHTracker)) (position : Position)
    (current_price : ℚ) (now : ℕ)
    (h : mapLookup tr1 position.token_address = mapLookup tr2 position.token_address) :
    (evaluate_exit_strategy tr1 position current_price now).2
      = (evaluate_exit_strategy tr2 position current_price now).2
    ∧ mapLookup (evaluate_exit_strategy tr1 position current_price now).1
        position.token_address
      = mapLookup (evaluate_exit_strategy tr2 position current_price now).1
          position.token_address := by
  cases h1 : mapLookup tr1 position.token_address with
  | none =>
      have h2 : mapLookup tr2 position.token_address = none := by rw [← h, h1]
      constructor
      · cases hs : position.strategy <;>
          simp [evaluate_exit_strategy, h1, h2, hs, check_ath_pullback_exit]
      · simp [evaluate_exit_strategy, h1, h2]
  | some t =>
      have h2 : mapLookup tr2 position.token_address = some t := by rw [← h, h1]
      constructor
      · cases hs : position.strategy <;>
          simp [evaluate_exit_strategy, h1, h2, hs, check_ath_pullback_exit,
                mapLookup_insert_self]
      · simp [evaluate_exit_strategy, h1, h2, mapLookup_insert_self]

lemma monitor_step_ne (sell : String → Except String TradeResult) (now : ℕ)
    (price_updates : List (String × ℚ)) (acc : TraderState × List String)
    (position : Position) (y : String) (h : position.token_address ≠ y) :
    mapLookup (monitor_step sell now price_updates acc position).1.positions y
      = mapLookup acc.1.positions y
    ∧ mapLookup (monitor_step sell now price_updates acc position).1.trackers y
      = mapLookup acc.1.trackers y := by
  cases hp : mapLookup price_updates position.token_address with
  | none => simp [monitor_step, hp]
  | some current_price =>
      have htr := evaluate_trackers_lookup_ne acc.1.trackers position current_price now y h
      cases hd : (evaluate_exit_strategy acc.1.trackers position current_price now).2 with
      | false => simp [monitor_step, hp, hd, htr]
      | true =>
          cases hs : sell position.token_address with
          | ok sell_result =>
              simp [monitor_step, hp, hd, hs,
                    mapLookup_remove_ne _ _ _ (fun he => h he.symm), htr]
          | error e => simp [monitor_step, hp, hd, hs, htr]

lemma monitor_step_congr (sell : String → Except String TradeResult) (now : ℕ)
    (pu1 pu2 : List (String × ℚ)) (acc1 acc2 : TraderState × List String)
    (position : Position)
    (hpu : mapLookup pu1 position.token_address = mapLookup pu2 position.token_address)
    (hpos : mapLookup acc1.1.positions position.token_address
              = mapLookup acc2.1.positions position.token_address)
    (htr : mapLookup acc1.1.trackers position.token_address
              = mapLookup acc2.1.trackers position.token_address) :
    mapLookup (monitor_step sell now pu1 acc1 position).1.positions
        position.token_address
      = mapLookup (monitor_step sell now pu2 acc2 position).1.positions
          position.token_address
    ∧ mapLookup (monitor_step sell now pu1 acc1 position).1.trackers
        position.token_address
      = mapLookup (monitor_step sell now pu2 acc2 position).1.trackers
          position.token_address := by
  cases hp1 : mapLookup pu1 position.token_address with
  | none =>
      have hp2 : mapLookup pu2 position.token_address = none := by rw [← hpu, hp1]
      simp [monitor_step, hp1, hp2, hpos, htr]
  | some current_price =>
      have hp2 : mapLookup pu2 position.token_address = some current_price := by
        rw [← hpu, hp1]
      obtain ⟨hdec, hlook⟩ :=
        evaluate_congr acc1.1.trackers acc2.1.trackers position current_price now htr
      cases hd : (evaluate_exit_strategy acc1.1.trackers position current_price now).2 with
      | false =>
          have hd2 : (evaluate_exit_strategy acc2.1.trackers position current_price now).2
              = false := by rw [← hdec, hd]
          simp [monitor_step, hp1, hp2, hd, hd2, hpos, hlook]
      | true =>
          have hd2 : (evaluate_exit_strategy acc2.1.trackers position current_price now).2
              = true := by rw [← hdec, hd]
          cases hs : sell position.token_address with
          | ok sell_result =>
              simp [monitor_step, hp1, hp2, hd, hd2, hs, mapLookup_remove_self]
          | error e => simp [monitor_step, hp1, hp2, hd, hd2, hs, hpos, hlook]

lemma get_current_price_isOk (jup : String → Except String ℚ) (token_address : String) :
    ∃ p, get_current_price jup token_address = Except.ok p := by
  cases h : jup token_address with
  | ok p => exact ⟨p, by simp [get_current_price, h]⟩
  | error e => exact ⟨0, by simp [get_current_price, h]⟩

lemma get_current_price_congr (jup1 jup2 : String → Except String ℚ)
    (token_address : String) (h : jup1 token_address = jup2 token_address) :
    get_current_price jup1 token_address = get_current_price jup2 token_address := by
  simp [get_current_price, h]

/-! ### ATH tracker fold lemmas -/

lemma updateTracker_ath_eq_max (t : ATHTracker) (p : ℚ) (n : ℕ) :
    (updateTracker t p n).ath_price = max t.ath_price p := by
  rcases le_or_lt p t.ath_price with h | h
  · simp [updateTracker, not_lt.mpr h, max_eq_left h]
  · simp [updateTracker, h, max_eq_right h.le]

lemma foldl_update_entry (now : ℕ) (ps : List ℚ) (t : ATHTracker) :
    (ps.foldl (fun tr q => updateTracker tr q now) t).entry_price = t.entry_price := by
  induction ps generalizing t with
  | nil => rfl
  | cons p rest ih =>
      rw [List.foldl_cons, ih]
      simp [updateTracker]

lemma foldl_update_ath_le (now : ℕ) (ps : List ℚ) (t : ATHTracker) :
    t.ath_price ≤ (ps.foldl (fun tr q => updateTracker tr q now) t).ath_price := by
  induction ps generalizing t with
  | nil => exact le_refl _
  | cons p rest ih =>
      rw [List.foldl_cons]
      refine le_trans ?_ (ih (updateTracker t p now))
      rw [updateTracker_ath_eq_max]
      exact le_max_left _ _

lemma make_ath_tracker_ath_eq_entry (strategy : StrategyType) (current_price : ℚ)
    (now : ℕ) :
    (make_ath_tracker strategy current_price now).ath_price
      = (make_ath_tracker strategy current_price now).entry_price := by
  cases strategy <;> rfl

/-! ### Claim theorems -/

/-- C10: when the entry price is zero the profit-percentage computation
returns 0, and when the watermark price is zero the pullback computation
returns 0; both computations are total functions of the current price, so
no input can crash them. -/
theorem c10_zero_division_guards (current_price : ℚ) :
    calculate_profit_percent 0 current_price = 0
    ∧ pullbackFromAth 0 current_price = 0 := by
  constructor
  · simp [calculate_profit_percent]
  · simp [pullbackFromAth]

/-- C2: for the watermark strategies the exit check returns exit if and only
if both conditions hold simultaneously: profit-from-entry
`(current - entry)/entry * 100 ≥ min_profit_percent` and
pullback-from-watermark `(ath - current)/ath * 100 ≥ pullback_percent`;
it never exits on one condition alone. -/
theorem c2_ath_exit_iff_profit_and_pullback (trackers : List (String × ATHTracker))
    (token_address : String) (t : ATHTracker) (current_price : ℚ)
    (h : mapLookup trackers token_address = some t)
    (he : 0 < t.entry_price) (ha : 0 < t.ath_price) :
    check_ath_pullback_exit trackers token_address current_price = true
      ↔ ((current_price - t.entry_price) / t.entry_price * 100 ≥ t.min_profit_percent
          ∧ (t.ath_price - current_price) / t.ath_price * 100 ≥ t.pullback_percent) := by
  simp [check_ath_pullback_exit, h, calculate_profit_percent, pullbackFromAth,
        he.ne', ha]

/-- C2 witness: a tracker with entry 1, ATH 1.10, thresholds 8% pullback /
3% min profit, at current price 1.00: profit 0% fails the profit gate even
though the pullback 9.09% passes, so no exit. -/
theorem c2_witness :
    check_ath_pullback_exit
        [("tok", { entry_price := 1, ath_price := 11/10, last_price := 1
                   pullback_percent := 8, min_profit_percent := 3
                   last_updated := 0 : ATHTracker })] "tok" 1 = false := by
  have h := c2_ath_exit_iff_profit_and_pullback
    [("tok", { entry_price := 1, ath_price := 11/10, last_price := 1
               pullback_percent := 8, min_profit_percent := 3
               last_updated := 0 : ATHTracker })] "tok"
    { entry_price := 1, ath_price := 11/10, last_price := 1
      pullback_percent := 8, min_profit_percent := 3, last_updated := 0 } 1
    (by simp [mapLookup]) (by norm_num) (by norm_num)
  rcases hb : check_ath_pullback_exit
      [("tok", { entry_price := 1, ath_price := 11/10, last_price := 1
                 pullback_percent := 8, min_profit_percent := 3
                 last_updated := 0 : ATHTracker })] "tok" 1 with _ | _
  · rfl
  · exfalso
    have := h.mp hb
    norm_num at this

/-- C3: the watermark is initialized equal to the entry price, every refresh
through the evaluator sets it to `max (ath_price, observed_price)` while
leaving the entry price unchanged, and hence along any sequence of observed
prices `ath_price` is non-decreasing and always at least `entry_price`. -/
theorem c3_ath_monotone_and_ge_entry (strategy : StrategyType)
    (current_price : ℚ) (now : ℕ) (ps : List ℚ) (t : ATHTracker) (p : ℚ) (n : ℕ)
    (trackers : List (String × ATHTracker)) (position : Position)
    (h : mapLookup trackers position.token_address = some t) :
    (updateTracker t p n).ath_price = max t.ath_price p
    ∧ (updateTracker t p n).entry_price = t.entry_price
    ∧ mapLookup (evaluate_exit_strategy trackers position p n).1 position.token_address
        = some (updateTracker t p n)
    ∧ (make_ath_tracker strategy current_price now).ath_price
        = (make_ath_tracker strategy current_price now).entry_price
    ∧ (make_ath_tracker strategy current_price now).ath_price
        ≤ (ps.foldl (fun tr q => updateTracker tr q now)
            (make_ath_tracker strategy current_price now)).ath_price
    ∧ (ps.foldl (fun tr q => updateTracker tr q now)
          (make_ath_tracker strategy current_price now)).entry_price
        ≤ (ps.foldl (fun tr q => updateTracker tr q now)
            (make_ath_tracker strategy current_price now)).ath_price := by
  refine ⟨updateTracker_ath_eq_max t p n, rfl,
          evaluate_trackers_lookup_self trackers position p n t h,
          make_ath_tracker_ath_eq_entry strategy current_price now, ?_, ?_⟩
  · exact foldl_update_ath_le now ps _
  · rw [foldl_update_entry, ← make_ath_tracker_ath_eq_entry strategy current_price now]
    exact foldl_update_ath_le now ps _

/-- C3 witness: a ConservativeATH tracker created at price 1 and refreshed
along the price path [2, 3/2]. -/
theorem c3_witness :
    (updateTracker (make_ath_tracker StrategyType.ConservativeATH 1 0) 2 1).ath_price
        = max (make_ath_tracker StrategyType.ConservativeATH 1 0).ath_price 2
    ∧ (updateTracker (make_ath_tracker StrategyType.ConservativeATH 1 0) 2 1).entry_price
        = (make_ath_tracker StrategyType.ConservativeATH 1 0).entry_price
    ∧ mapLookup
        (evaluate_exit_strategy
          [("tok", make_ath_tracker StrategyType.ConservativeATH 1 0)]
          { token_address := "tok", entry_price := 1, amount_tokens := 5
            entry_time := 0, strategy := StrategyType.ConservativeATH
            buy_signature := "sig" } 2 1).1 "tok"
        = some (updateTracker (make_ath_tracker StrategyType.ConservativeATH 1 0) 2 1)
    ∧ (make_ath_tracker StrategyType.ConservativeATH 1 0).ath_price
        = (make_ath_tracker StrategyType.ConservativeATH 1 0).entry_price
    ∧ (make_ath_tracker StrategyType.ConservativeATH 1 0).ath_price
        ≤ ([2, 3/2].foldl (fun tr q => updateTracker tr q 0)
            (make_ath_tracker StrategyType.ConservativeATH 1 0)).ath_price
    ∧ ([2, 3/2].foldl (fun tr q => updateTracker tr q 0)
          (make_ath_tracker StrategyType.ConservativeATH 1 0)).entry_price
        ≤ ([2, 3/2].foldl (fun tr q => updateTracker tr q 0)
            (make_ath_tracker StrategyType.ConservativeATH 1 0)).ath_price :=
  c3_ath_monotone_and_ge_entry StrategyType.ConservativeATH 1 0 [2, 3/2]
    (make_ath_tracker StrategyType.ConservativeATH 1 0) 2 1
    [("tok", make_ath_tracker StrategyType.ConservativeATH 1 0)]
    { token_address := "tok", entry_price := 1, amount_tokens := 5
      entry_time := 0, strategy := StrategyType.ConservativeATH
      buy_signature := "sig" }
    (by simp [mapLookup])

/-- C6: for the fixed-threshold strategies the evaluator exits exactly when
the profit percentage `(current - entry)/entry * 100` reaches a configured
bound inclusively — Conservative at ≥ 15 or ≤ -5, Aggressive at ≥ 50 or
≤ -15 — and holds strictly inside the open interval between the bounds. -/
theorem c6_fixed_threshold_inclusive_bounds
    (trackers : List (String × ATHTracker)) (position : Position)
    (current_price : ℚ) (now : ℕ) (he : 0 < position.entry_price) :
    (position.strategy = StrategyType.Conservative →
      ((evaluate_exit_strategy trackers position current_price now).2 = true
        ↔ ((current_price - position.entry_price) / position.entry_price * 100 ≥ 15
            ∨ (current_price - position.entry_price) / position.entry_price * 100 ≤ -5)))
    ∧ (position.strategy = StrategyType.Aggressive →
      ((evaluate_exit_strategy trackers position current_price now).2 = true
        ↔ ((current_price - position.entry_price) / position.entry_price * 100 ≥ 50
            ∨ (current_price - position.entry_price) / position.entry_price * 100 ≤ -15))) := by
  constructor <;> intro hs <;>
    simp [evaluate_exit_strategy, hs, calculate_profit_percent, he.ne']

/-- C6 witness: a Conservative position with entry 1 at current price 23/20
(profit exactly 15%) exits, and at current price 11/10 (profit 10%) holds. -/
theorem c6_witness :
    (evaluate_exit_strategy []
      { token_address := "tok", entry_price := 1, amount_tokens := 5
        entry_time := 0, strategy := StrategyType.Conservative
        buy_signature := "sig" } (23/20) 0).2 = true
    ∧ (evaluate_exit_strategy []
      { token_address := "tok", entry_price := 1, amount_tokens := 5
        entry_time := 0, strategy := StrategyType.Conservative
        buy_signature := "sig" } (11/10) 0).2 = false := by
  have h1 := (c6_fixed_threshold_inclusive_bounds []
    { token_address := "tok", entry_price := 1, amount_tokens := 5
      entry_time := 0, strategy := StrategyType.Conservative
      buy_signature := "sig" } (23/20) 0 (by norm_num)).1 rfl
  have h2 := (c6_fixed_threshold_inclusive_bounds []
    { token_address := "tok", entry_price := 1, amount_tokens := 5
      entry_time := 0, strategy := StrategyType.Conservative
      buy_signature := "sig" } (11/10) 0 (by norm_num)).1 rfl
  constructor
  · exact h1.mpr (by norm_num)
  · rcases hb : (evaluate_exit_strategy []
      { token_address := "tok", entry_price := 1, amount_tokens := 5
        entry_time := 0, strategy := StrategyType.Conservative
        buy_signature := "sig" } (11/10) 0).2 with _ | _
    · rfl
    · exfalso
      have := h2.mp hb
      norm_num at this

/-- C9: within one evaluation the tracker is refreshed with the observed
price before the pullback condition is checked: the decision is computed
against the already-updated map, and a price at or above the old watermark
becomes the new watermark, so the pullback seen in the same tick is 0. -/
theorem c9_watermark_updated_before_pullback
    (trackers : List (String × ATHTracker)) (position : Position)
    (current_price : ℚ) (now : ℕ) (t : ATHTracker)
    (h : mapLookup trackers position.token_address = some t)
    (hath : t.ath_price ≤ current_price)
    (hs : position.strategy = StrategyType.ConservativeATH
          ∨ position.strategy = StrategyType.AggressiveATH) :
    mapLookup (evaluate_exit_strategy trackers position current_price now).1
        position.token_address = some (updateTracker t current_price now)
    ∧ (updateTracker t current_price now).ath_price = current_price
    ∧ pullbackFromAth (updateTracker t current_price now).ath_price current_price = 0
    ∧ (evaluate_exit_strategy trackers position current_price now).2
        = check_ath_pullback_exit
            (evaluate_exit_strategy trackers position current_price now).1
            position.token_address current_price := by
  have hnew : (updateTracker t current_price now).ath_price = current_price := by
    rw [updateTracker_ath_eq_max]
    exact max_eq_right hath
  refine ⟨evaluate_trackers_lookup_self trackers position current_price now t h,
          hnew, ?_, ?_⟩
  · rw [hnew]
    by_cases hc : 0 < current_price
    · simp [pullbackFromAth, hc]
    · simp [pullbackFromAth, hc]
  · rcases hs with hs | hs <;> simp [evaluate_exit_strategy, h, hs]

/-- C9 witness: a ConservativeATH tracker with watermark 1 observing a fresh
high of 2 in the same tick. -/
theorem c9_witness :
    mapLookup
        (evaluate_exit_strategy
          [("tok", make_ath_tracker StrategyType.ConservativeATH 1 0)]
          { token_address := "tok", entry_price := 1, amount_tokens := 5
            entry_time := 0, strategy := StrategyType.ConservativeATH
            buy_signature := "sig" } 2 1).1 "tok"
        = some (updateTracker (make_ath_tracker StrategyType.ConservativeATH 1 0) 2 1)
    ∧ (updateTracker (make_ath_tracker StrategyType.ConservativeATH 1 0) 2 1).ath_price = 2
    ∧ pullbackFromAth
        (updateTracker (make_ath_tracker StrategyType.ConservativeATH 1 0) 2 1).ath_price 2 = 0
    ∧ (evaluate_exit_strategy
          [("tok", make_ath_tracker StrategyType.ConservativeATH 1 0)]
          { token_address := "tok", entry_price := 1, amount_tokens := 5
            entry_time := 0, strategy := StrategyType.ConservativeATH
            buy_signature := "sig" } 2 1).2
        = check_ath_pullback_exit
            (evaluate_exit_strategy
              [("tok", make_ath_tracker StrategyType.ConservativeATH 1 0)]
              { token_address := "tok", entry_price := 1, amount_tokens := 5
                entry_time := 0, strategy := StrategyType.ConservativeATH
                buy_signature := "sig" } 2 1).1 "tok" 2 :=
  c9_watermark_updated_before_pullback
    [("tok", make_ath_tracker StrategyType.ConservativeATH 1 0)]
    { token_address := "tok", entry_price := 1, amount_tokens := 5
      entry_time := 0, strategy := StrategyType.ConservativeATH
      buy_signature := "sig" } 2 1
    (make_ath_tracker StrategyType.ConservativeATH 1 0)
    (by simp [mapLookup]) (by norm_num [make_ath_tracker]) (Or.inl rfl)

/-- C5: the price fetch used by the monitoring loop never returns an error —
on an oracle failure it returns `Ok 0` — and a fixed-threshold position
evaluated at price 0 has profit -100%, which satisfies the stop-loss bound
and triggers an exit. -/
theorem c5_price_fetch_infallible_zero_fallback
    (jup jup2 : String → Except String ℚ) (token_address t2 : String) (e : String)
    (trackers : List (String × ATHTracker)) (position : Position) (now : ℕ)
    (hfail : jup token_address = Except.error e)
    (hentry : position.entry_price ≠ 0)
    (hs : position.strategy = StrategyType.Conservative
          ∨ position.strategy = StrategyType.Aggressive) :
    (∃ p, get_current_price jup2 t2 = Except.ok p)
    ∧ get_current_price jup token_address = Except.ok 0
    ∧ calculate_profit_percent position.entry_price 0 = -100
    ∧ (evaluate_exit_strategy trackers position 0 now).2 = true := by
  have hprof : calculate_profit_percent position.entry_price 0 = -100 := by
    simp only [calculate_profit_percent, if_neg hentry]
    field_simp
  refine ⟨get_current_price_isOk jup2 t2, by simp [get_current_price, hfail],
          hprof, ?_⟩
  rcases hs with hs | hs <;> simp [evaluate_exit_strategy, hs, hprof] <;> norm_num

/-- C5 witness: an oracle that fails for every token, a Conservative
position with entry 1. -/
theorem c5_witness :
    (∃ p, get_current_price (fun _ => Except.ok (5 : ℚ)) "tokB" = Except.ok p)
    ∧ get_current_price (fun _ => Except.error "down") "tokA" = Except.ok 0
    ∧ calculate_profit_percent 1 0 = -100
    ∧ (evaluate_exit_strategy []
        { token_address := "tokA", entry_price := 1, amount_tokens := 5
          entry_time := 0, strategy := StrategyType.Conservative
          buy_signature := "sig" } 0 0).2 = true :=
  c5_price_fetch_infallible_zero_fallback
    (fun _ => Except.error "down") (fun _ => Except.ok (5 : ℚ)) "tokA" "tokB" "down"
    []
    { token_address := "tokA", entry_price := 1, amount_tokens := 5
      entry_time := 0, strategy := StrategyType.Conservative
      buy_signature := "sig" } 0
    rfl (by norm_num) (Or.inl rfl)

/-- C7: the quote retry loop (called with ceiling 3) makes at most 3
attempts with linear backoff 500·attempt between attempts and, when all
attempts fail, returns the final underlying error; the broadcast retry loop
makes at most 5 attempts with exponential backoff 500·2^(attempt-1) and,
when all attempts fail, returns an error carrying the final underlying
failure. -/
theorem c7_retry_ceilings_and_backoff
    (attemptQ : ℕ → Except String ℕ) (attemptS : ℕ → Except String String)
    (errQ errS : ℕ → String) :
    (get_jupiter_quote_with_retry attemptQ 3).attempts_made ≤ 3
    ∧ (send_with_retry attemptS).attempts_made ≤ 5
    ∧ ((∀ a, attemptQ a = Except.error (errQ a)) →
        (get_jupiter_quote_with_retry attemptQ 3).result = Except.error (errQ 3)
        ∧ (get_jupiter_quote_with_retry attemptQ 3).delays_ms = [500, 1000])
    ∧ ((∀ a, attemptS a = Except.error (errS a)) →
        (send_with_retry attemptS).result
            = Except.error ("Transaction failed after 5 attempts: " ++ ("Some(" ++ errS 5 ++ ")"))
        ∧ (send_with_retry attemptS).delays_ms = [500, 1000, 2000, 4000]) := by
  have hr3 : List.range' 1 3 = [1, 2, 3] := rfl
  have hr5 : List.range' 1 5 = [1, 2, 3, 4, 5] := rfl
  refine ⟨?_, ?_, ?_, ?_⟩
  · rw [get_jupiter_quote_with_retry, hr3]
    cases h1 : attemptQ 1 with
    | ok v => simp [quoteLoop, h1]
    | error e1 =>
        cases h2 : attemptQ 2 with
        | ok v => simp [quoteLoop, h1, h2]
        | error e2 =>
            cases h3 : attemptQ 3 with
            | ok v => simp [quoteLoop, h1, h2, h3]
            | error e3 => simp [quoteLoop, h1, h2, h3]
  · rw [send_with_retry, hr5]
    cases h1 : attemptS 1 with
    | ok v => simp [sendLoop, h1]
    | error e1 =>
        cases h2 : attemptS 2 with
        | ok v => simp [sendLoop, h1, h2]
        | error e2 =>
            cases h3 : attemptS 3 with
            | ok v => simp [sendLoop, h1, h2, h3]
            | error e3 =>
                cases h4 : attemptS 4 with
                | ok v => simp [sendLoop, h1, h2, h3, h4]
                | error e4 =>
                    cases h5 : attemptS 5 with
                    | ok v => simp [sendLoop, h1, h2, h3, h4, h5]
                    | error e5 => simp [sendLoop, h1, h2, h3, h4, h5]
  · intro hall
    rw [get_jupiter_quote_with_retry, hr3]
    simp [quoteLoop, hall 1, hall 2, hall 3]
  · intro hall
    rw [send_with_retry, hr5]
    simp [sendLoop, debugOpt, hall 1, hall 2, hall 3, hall 4, hall 5]

/-- C7 witness: attempt outcomes that fail on every attempt, with distinct
error messages per attempt number. -/
theorem c7_witness :
    (get_jupiter_quote_with_retry
        (fun a => (Except.error ("q" ++ toString a) : Except String ℕ)) 3).attempts_made ≤ 3
    ∧ (send_with_retry
        (fun a => (Except.error ("s" ++ toString a) : Except String String))).attempts_made ≤ 5
    ∧ ((get_jupiter_quote_with_retry
          (fun a => (Except.error ("q" ++ toString a) : Except String ℕ)) 3).result
            = Except.error ("q" ++ toString 3)
        ∧ (get_jupiter_quote_with_retry
            (fun a => (Except.error ("q" ++ toString a) : Except String ℕ)) 3).delays_ms
            = [500, 1000])
    ∧ ((send_with_retry
          (fun a => (Except.error ("s" ++ toString a) : Except String String))).result
            = Except.error
                ("Transaction failed after 5 attempts: " ++ ("Some(" ++ ("s" ++ toString 5) ++ ")"))
        ∧ (send_with_retry
            (fun a => (Except.error ("s" ++ toString a) : Except String String))).delays_ms
            = [500, 1000, 2000, 4000]) := by
  have h := c7_retry_ceilings_and_backoff
    (fun a => (Except.error ("q" ++ toString a) : Except String ℕ))
    (fun a => (Except.error ("s" ++ toString a) : Except String String))
    (fun a => "q" ++ toString a) (fun a => "s" ++ toString a)
  exact ⟨h.1, h.2.1, h.2.2.1 (fun a => rfl), h.2.2.2 (fun a => rfl)⟩

/-! ### C8: store insertion for an already-open token -/

/-- A store already holding an open position for token `tok`. -/
def c8_oldPosition : Position :=
  { token_address := "tok", entry_price := 2, amount_tokens := 100
    entry_time := 0, strategy := StrategyType.Conservative, buy_signature := "sig1" }

def c8_oldTracker : ATHTracker := make_ath_tracker StrategyType.Conservative 2 0

def c8_store : TraderState :=
  { positions := [("tok", c8_oldPosition)], trackers := [("tok", c8_oldTracker)] }

/-- A second buy of the same token. -/
def c8_config : TradeConfig :=
  { token_address := "tok", amount_sol := 1, slippage_bps := 100
    strategy := StrategyType.Aggressive }

def c8_after : TraderState := initialize_position c8_store c8_config "sig2" 50 3 1

/-- C8 counterexample: inserting a position for a token that already has an
open position does not fail — `initialize_position` completes and the
existing Position/ATHTracker pair is silently replaced by the new one. -/
theorem c8_insert_silently_replaces :
    mapLookup c8_store.positions "tok" = some c8_oldPosition
    ∧ mapLookup c8_after.positions "tok" = some (make_position c8_config "sig2" 50 3 1)
    ∧ make_position c8_config "sig2" 50 3 1 ≠ c8_oldPosition
    ∧ mapLookup c8_after.trackers "tok" = some (make_ath_tracker StrategyType.Aggressive 3 1)
    ∧ make_ath_tracker StrategyType.Aggressive 3 1 ≠ c8_oldTracker := by
  refine ⟨rfl, ?_, ?_, ?_, ?_⟩
  · simp [c8_after, initialize_position, c8_store, c8_config, mapInsert, mapLookup]
  · intro h
    have := congrArg Position.entry_price h
    simp [make_position, c8_config, c8_oldPosition] at this
  · simp [c8_after, initialize_position, c8_store, c8_config, mapInsert, mapLookup]
  · intro h
    have := congrArg ATHTracker.entry_price h
    simp [make_ath_tracker, c8_oldTracker] at this

/-- C8 amended: inserting a position for a token that already has an open
position silently replaces the existing Position/ATHTracker pair
(`HashMap::insert` semantics) rather than failing; the store still holds at
most one entry per token identifier, since insertion preserves key
uniqueness. -/
theorem c8_amended_insert_replaces_keeps_unique (st : TraderState)
    (config : TradeConfig) (signature : String) (tokens_received : ℕ)
    (current_price : ℚ) (now : ℕ) :
    mapLookup (initialize_position st config signature tokens_received
        current_price now).positions config.token_address
      = some (make_position config signature tokens_received current_price now)
    ∧ mapLookup (initialize_position st config signature tokens_received
        current_price now).trackers config.token_address
      = some (make_ath_tracker config.strategy current_price now)
    ∧ (keysNodup st.positions →
        keysNodup (initialize_position st config signature tokens_received
          current_price now).positions)
    ∧ (keysNodup st.trackers →
        keysNodup (initialize_position st config signature tokens_received
          current_price now).trackers) := by
  refine ⟨?_, ?_, ?_, ?_⟩
  · exact mapLookup_insert_self _ _ _
  · exact mapLookup_insert_self _ _ _
  · exact fun h => keysNodup_insert _ _ _ h
  · exact fun h => keysNodup_insert _ _ _ h

/-- C8 amended witness: replacing the open `"tok"` position of `c8_store`. -/
theorem c8_amended_witness :
    mapLookup (initialize_position c8_store c8_config "sig2" 50 3 1).positions "tok"
      = some (make_position c8_config "sig2" 50 3 1)
    ∧ mapLookup (initialize_position c8_store c8_config "sig2" 50 3 1).trackers "tok"
      = some (make_ath_tracker StrategyType.Aggressive 3 1)
    ∧ keysNodup (initialize_position c8_store c8_config "sig2" 50 3 1).positions
    ∧ keysNodup (initialize_position c8_store c8_config "sig2" 50 3 1).trackers := by
  have h := c8_amended_insert_replaces_keeps_unique c8_store c8_config "sig2" 50 3 1
  exact ⟨h.1, h.2.1,
         h.2.2.1 (by simp [c8_store, keysNodup, mapKeys]),
         h.2.2.2 (by simp [c8_store, keysNodup, mapKeys])⟩

/-! ### C1: what happens to a position whose sell fails -/

def c1_position (token_address : String) : Position :=
  { token_address := token_address, entry_price := 1, amount_tokens := 5
    entry_time := 0, strategy := StrategyType.Conservative, buy_signature := "sigbuy" }

/-- Oracle returning price 2 for every token (profit 100% on entry 1, so the
Conservative take-profit triggers). -/
def c1_jup : String → Except String ℚ := fun _ => Except.ok 2

def c1_balanceOf : String → Except String ℕ := fun _ => Except.ok 5

/-- A sell gateway whose swap call fails with an error. -/
def c1_gateway_fail : String → Except String String := fun _ => Except.error "gateway error"

/-- `sell_position` against the failing gateway: it returns `Ok` with
`success = false`. -/
def c1_sell : String → Except String TradeResult :=
  sell_position c1_balanceOf c1_gateway_fail 7

def c1_state : TraderState :=
  { positions := [("tokA", c1_position "tokA")]
    trackers := [("tokA", make_ath_tracker StrategyType.Conservative 1 0)] }

/-- Gateway for the emergency scenario: the sell of `"t2"` fails at the
gateway, the other two succeed. -/
def c1_sell3 : String → Except String TradeResult := fun token_address =>
  if token_address = "t2" then sell_position c1_balanceOf c1_gateway_fail 7 token_address
  else sell_position c1_balanceOf (fun _ => Except.ok "sig-ok") 7 token_address

def c1_state3 : TraderState :=
  { positions := [("t1", c1_position "t1"), ("t2", c1_position "t2"),
                  ("t3", c1_position "t3")]
    trackers := [("t1", make_ath_tracker StrategyType.Conservative 1 0),
                 ("t2", make_ath_tracker StrategyType.Conservative 1 0),
                 ("t3", make_ath_tracker StrategyType.Conservative 1 0)] }

/-- C1 evaluated at the failing input: a sell whose gateway call fails is
reported as `Ok` with `success = false`, yet the monitoring cycle still
removes the Position and ATHTracker, and emergency liquidation clears the
whole store including the position whose sell failed (3 positions, 2nd sell
failed, store left empty). -/
theorem c1_failed_sell_still_removes_position :
    c1_sell "tokA"
        = Except.ok { signature := "", success := false, error := some "gateway error"
                      execution_time_ms := 7, platform_used := Platform.Jupiter
                      tokens_received := none, sol_spent := none }
    ∧ (monitor_positions c1_jup c1_sell 1 c1_state).1.positions = []
    ∧ (monitor_positions c1_jup c1_sell 1 c1_state).1.trackers = []
    ∧ (emergency_sell_all c1_sell3 c1_state3).1.positions = []
    ∧ (emergency_sell_all c1_sell3 c1_state3).1.trackers = []
    ∧ ((emergency_sell_all c1_sell3 c1_state3).2.map TradeResult.success)
        = [true, false, true] := by
  refine ⟨rfl, ?_, ?_, rfl, rfl, ?_⟩
  · norm_num [monitor_positions, monitor_step, price_snapshot, get_current_price,
              c1_jup, c1_state, c1_position, c1_sell, c1_balanceOf, c1_gateway_fail,
              sell_position, evaluate_exit_strategy, calculate_profit_percent,
              make_ath_tracker, updateTracker, mapLookup, mapInsert, mapRemove]
  · norm_num [monitor_positions, monitor_step, price_snapshot, get_current_price,
              c1_jup, c1_state, c1_position, c1_sell, c1_balanceOf, c1_gateway_fail,
              sell_position, evaluate_exit_strategy, calculate_profit_percent,
              make_ath_tracker, updateTracker, mapLookup, mapInsert, mapRemove]
  · norm_num [emergency_sell_all, c1_state3, c1_sell3, c1_position, c1_balanceOf,
              c1_gateway_fail, sell_position,
              show ("t1" = "t2") = False from by simp,
              show ("t3" = "t2") = False from by simp]

/-! ### C4: a cycle with a price-lookup failure -/

def c4_position : Position :=
  { token_address := "tokX", entry_price := 1, amount_tokens := 5
    entry_time := 0, strategy := StrategyType.Conservative, buy_signature := "sigbuy" }

/-- Jupiter price oracle that fails for every token. -/
def c4_jup : String → Except String ℚ := fun _ => Except.error "price API down"

def c4_sell_ok : String → Except String TradeResult :=
  sell_position (fun _ => Except.ok 5) (fun _ => Except.ok "sig-sell") 3

def c4_state : TraderState :=
  { positions := [("tokX", c4_position)]
    trackers := [("tokX", make_ath_tracker StrategyType.Conservative 1 0)] }

/-- C4 counterexample: when the Jupiter price lookup for `"tokX"` fails, the
token is not excluded from exit evaluation — `get_current_price` falls back
to `Ok 0`, the position is evaluated at price 0 (profit -100%, Conservative
stop-loss), an exit is executed and the position is removed in that very
cycle. -/
theorem c4_price_failure_does_not_exclude_token :
    c4_jup "tokX" = Except.error "price API down"
    ∧ mapLookup (monitor_positions c4_jup c4_sell_ok 1 c4_state).1.positions "tokX" = none
    ∧ (monitor_positions c4_jup c4_sell_ok 1 c4_state).2.length = 1 := by
  refine ⟨rfl, ?_, ?_⟩ <;>
    norm_num [monitor_positions, monitor_step, price_snapshot, get_current_price,
              c4_jup, c4_state, c4_position, c4_sell_ok, sell_position,
              evaluate_exit_strategy, calculate_profit_percent, make_ath_tracker,
              updateTracker, mapLookup, mapInsert, mapRemove]

/-- A store holding exactly two open positions. -/
def twoPositionState (px py : Position) (tx ty : ATHTracker) : TraderState :=
  { positions := [(px.token_address, px), (py.token_address, py)]
    trackers := [(px.token_address, tx), (py.token_address, ty)] }

/-- C4 amended: in a monitoring cycle with two open positions, a
price-oracle failure for token X does not abort the cycle and leaves the
evaluation and potential exit of the other position Y unchanged (its outcome
is the same under any oracle that agrees on Y); however X is not excluded
from evaluation: its price fetch falls back to `Ok 0` and X is evaluated at
price 0 in that cycle. -/
theorem c4_amended_isolation_and_zero_price
    (jup1 jup2 : String → Except String ℚ) (sell : String → Except String TradeResult)
    (now : ℕ) (px py : Position) (tx ty : ATHTracker) (e : String)
    (hxy : px.token_address ≠ py.token_address)
    (hfail : jup1 px.token_address = Except.error e)
    (hagree : jup1 py.token_address = jup2 py.token_address) :
    get_current_price jup1 px.token_address = Except.ok 0
    ∧ mapLookup (monitor_positions jup1 sell now
          (twoPositionState px py tx ty)).1.positions py.token_address
        = mapLookup (monitor_positions jup2 sell now
            (twoPositionState px py tx ty)).1.positions py.token_address
    ∧ mapLookup (monitor_positions jup1 sell now
          (twoPositionState px py tx ty)).1.trackers py.token_address
        = mapLookup (monitor_positions jup2 sell now
            (twoPositionState px py tx ty)).1.trackers py.token_address := by
  have hm1 : monitor_positions jup1 sell now (twoPositionState px py tx ty)
      = monitor_step sell now (price_snapshot jup1 [px, py])
          (monitor_step sell now (price_snapshot jup1 [px, py])
            (twoPositionState px py tx ty, []) px) py := rfl
  have hm2 : monitor_positions jup2 sell now (twoPositionState px py tx ty)
      = monitor_step sell now (price_snapshot jup2 [px, py])
          (monitor_step sell now (price_snapshot jup2 [px, py])
            (twoPositionState px py tx ty, []) px) py := rfl
  obtain ⟨qy, hqy⟩ := get_current_price_isOk jup1 py.token_address
  have hqy2 : get_current_price jup2 py.token_address = Except.ok qy := by
    rw [← get_current_price_congr jup1 jup2 py.token_address hagree]
    exact hqy
  have hprice : ∀ (jup : String → Except String ℚ) (q : ℚ),
      get_current_price jup py.token_address = Except.ok q →
      mapLookup (price_snapshot jup [px, py]) py.token_address = some q := by
    intro jup q hq
    obtain ⟨qx, hqx⟩ := get_current_price_isOk jup px.token_address
    simp only [price_snapshot, List.foldl_cons, List.foldl_nil, hqx, hq]
    exact mapLookup_insert_self _ _ _
  have hpu1 := hprice jup1 qy hqy
  have hpu2 := hprice jup2 qy hqy2
  have hA1 := monitor_step_ne sell now (price_snapshot jup1 [px, py])
      (twoPositionState px py tx ty, []) px py.token_address hxy
  have hA2 := monitor_step_ne sell now (price_snapshot jup2 [px, py])
      (twoPositionState px py tx ty, []) px py.token_address hxy
  have hfin := monitor_step_congr sell now (price_snapshot jup1 [px, py])
      (price_snapshot jup2 [px, py])
      (monitor_step sell now (price_snapshot jup1 [px, py])
        (twoPositionState px py tx ty, []) px)
      (monitor_step sell now (price_snapshot jup2 [px, py])
        (twoPositionState px py tx ty, []) px)
      py (by rw [hpu1, hpu2]) (by rw [hA1.1, hA2.1]) (by rw [hA1.2, hA2.2])
  refine ⟨by simp [get_current_price, hfail], ?_, ?_⟩
  · rw [hm1, hm2]
    exact hfin.1
  · rw [hm1, hm2]
    exact hfin.2

def c4w_px : Position :=
  { token_address := "aa", entry_price := 1, amount_tokens := 5
    entry_time := 0, strategy := StrategyType.Conservative, buy_signature := "s" }

def c4w_py : Position :=
  { token_address := "bb", entry_price := 2, amount_tokens := 5
    entry_time := 0, strategy := StrategyType.Conservative, buy_signature := "s" }

def c4w_tracker : ATHTracker := make_ath_tracker StrategyType.Conservative 1 0

def c4w_jup1 : String → Except String ℚ := fun token_address =>
  if token_address = "bb" then Except.ok 3 else Except.error "down"

def c4w_jup2 : String → Except String ℚ := fun _ => Except.ok 3

def c4w_sell : String → Except String TradeResult :=
  sell_position (fun _ => Except.ok 5) (fun _ => Except.ok "sig-sell") 3

/-- C4 amended witness: token `"aa"`'s oracle lookup fails while `"bb"`'s
succeeds with the same price under both oracles. -/
theorem c4_amended_witness :
    get_current_price c4w_jup1 "aa" = Except.ok 0
    ∧ mapLookup (monitor_positions c4w_jup1 c4w_sell 0
          (twoPositionState c4w_px c4w_py c4w_tracker c4w_tracker)).1.positions "bb"
        = mapLookup (monitor_positions c4w_jup2 c4w_sell 0
            (twoPositionState c4w_px c4w_py c4w_tracker c4w_tracker)).1.positions "bb"
    ∧ mapLookup (monitor_positions c4w_jup1 c4w_sell 0
          (twoPositionState c4w_px c4w_py c4w_tracker c4w_tracker)).1.trackers "bb"
        = mapLookup (monitor_positions c4w_jup2 c4w_sell 0
            (twoPositionState c4w_px c4w_py c4w_tracker c4w_tracker)).1.trackers "bb" :=
  c4_amended_isolation_and_zero_price c4w_jup1 c4w_jup2 c4w_sell 0
    c4w_px c4w_py c4w_tracker c4w_tracker "down"
    (by simp [c4w_px, c4w_py]) (by simp [c4w_jup1, c4w_px])
    (by simp [c4w_jup1, c4w_jup2, c4w_py])

end Tradey
